import Mathlib

/-!
Shallow embedding of `src/zhuancun.py` (AliPCS share-transfer tool).

The Python program talks to a remote JSON API.  We model Python/JSON values
with the inductive `PyVal`, Python exceptions with `PyErr`, and every remote
response as an oracle argument (a list or function supplied to the embedded
definition).  Machine behaviour that the claims depend on — dict iteration
yielding keys, string subscripting raising `TypeError`, `dict.get` defaulting
to `None`, truthiness — is embedded explicitly.
-/

/-- Python/JSON values as manipulated by the script. -/
inductive PyVal where
  | none
  | bool (b : Bool)
  | int (n : Int)
  | str (s : String)
  | list (xs : List PyVal)
  | dict (kvs : List (String × PyVal))

/-- The Python exception kinds the embedded code paths can raise. -/
inductive PyErr where
  | typeError
  | keyError
  | indexError
  | attributeError
deriving DecidableEq

/-- Python truthiness (`if v:`). -/
def PyVal.truthy : PyVal → Bool
  | .none => false
  | .bool b => b
  | .int n => n != 0
  | .str s => s != ""
  | .list xs => !xs.isEmpty
  | .dict kvs => !kvs.isEmpty

/-- Is this value the integer `n`?  (Python `v == n` for an int literal.) -/
def PyVal.isInt (n : Int) : PyVal → Bool
  | .int m => m == n
  | _ => false

/-- Is this value the string `s`?  (Python `v == s` for a string literal.) -/
def PyVal.isStr (s : String) : PyVal → Bool
  | .str t => t == s
  | _ => false

/-- Python subscripting `v[idx]`.  A dict indexed by a string key raises
`KeyError` when absent; a list indexed by an int raises `IndexError` out of
range (the source only ever indexes lists at 0, so negative indices are not
modelled); any other combination — in particular a string subscripted by a
string, which the per-item loop in `save_shared_folder` performs —
raises `TypeError`. -/
def PyVal.getItem : PyVal → PyVal → Except PyErr PyVal
  | .dict kvs, .str k =>
      match kvs.lookup k with
      | some v => .ok v
      | Option.none => .error .keyError
  | .list xs, .int n =>
      if 0 ≤ n ∧ n < (xs.length : Int) then .ok (xs.getD n.toNat .none)
      else .error .indexError
  | _, _ => .error .typeError

/-- Python `v.get(k)` on a dict: the value, or `None` when absent.  On any
non-dict value (including `None` itself) the attribute lookup raises
`AttributeError`. -/
def PyVal.dictGet : PyVal → String → Except PyErr PyVal
  | .dict kvs, k => .ok ((kvs.lookup k).getD .none)
  | _, _ => .error .attributeError

/-- Python iteration `for x in v`: a list yields its elements, a dict yields
its KEYS (as strings), a string yields its one-character substrings; other
values raise `TypeError`. -/
def PyVal.iterate : PyVal → Except PyErr (List PyVal)
  | .list xs => .ok xs
  | .dict kvs => .ok (kvs.map (fun kv => PyVal.str kv.1))
  | .str s => .ok (s.data.map (fun c => PyVal.str (String.mk [c])))
  | _ => .error .typeError

/-!
## The resilient request wrapper `AliPCS.make_request`

One HTTP attempt either yields a JSON body (success after
`raise_for_status`) or raises `requests.RequestException` with an observable
status code.  The network is an oracle: a list holding the outcome of each
successive attempt, whose length is the `max_retries` bound of the
`for attempt in range(max_retries)` loop (one entry per attempt the loop
could make).
-/

/-- Outcome of one HTTP attempt inside `make_request`. -/
inductive Attempt where
  | ok (body : PyVal)
  | httpErr (status : Nat)

/-- What the `make_request` call as a whole does. -/
inductive ReqOutcome where
  | ok (body : PyVal)
  /-- the `for` loop ended without returning or raising: Python returns `None` -/
  | noneReturned
  /-- an exception was re-raised to the caller -/
  | raised

/-- `self.request_interval = max(1, self.request_interval - 0.1)` (line 34). -/
def succStep (x : ℚ) : ℚ := max 1 (x - 1/10)

/-- `self.request_interval *= 2` (line 39). -/
def rateLimitStep (x : ℚ) : ℚ := x * 2

/-- `AliPCS.make_request` (src/zhuancun.py lines 26–44), with the network as
an oracle list of per-attempt outcomes.  Returns the call outcome, the final
`request_interval`, and the list of durations passed to `time.sleep`.
On success the interval shrinks by `succStep` and the body is returned; on a
429 the interval doubles and the doubled value is slept; on any other failure
the exception is re-raised only when this was the last attempt
(`attempt == max_retries - 1`); after a 429 on the last attempt the loop
simply ends, so the function returns Python `None`. -/
def make_request (attempts : List Attempt) (interval : ℚ) :
    ReqOutcome × ℚ × List ℚ :=
  match attempts with
  | [] => (.noneReturned, interval, [])
  | .ok b :: _ => (.ok b, succStep interval, [])
  | .httpErr s :: rest =>
      if s = 429 then
        let i2 := rateLimitStep interval
        let r := make_request rest i2
        (r.1, r.2.1, i2 :: r.2.2)
      else if rest.isEmpty then (.raised, interval, [])
      else make_request rest interval

/-!
## Retry limits (`max_retries` arguments across the client)

`make_request` declares `max_retries=2` as its default (line 26); the
metadata/listing operations `get_share_info`, `list_files`, `create_folder`
and `copy_file` call it without overriding that default, while the bulk-batch
operations `batch_copy_files` (line 144), `batch_copy_folder` (line 171) and
`check_async_task` (line 192) pass `max_retries=1` explicitly.
-/

def make_request_default_max_retries : Nat := 2

def get_share_info_max_retries : Nat := make_request_default_max_retries

def list_files_max_retries : Nat := make_request_default_max_retries

def create_folder_max_retries : Nat := make_request_default_max_retries

def copy_file_max_retries : Nat := make_request_default_max_retries

def batch_copy_files_max_retries : Nat := 1

def batch_copy_folder_max_retries : Nat := 1

def check_async_task_max_retries : Nat := 1

/-!
## `AliPCS.list_files` (lines 54–80): transparent pagination

Each iteration of the `while True` loop POSTs one list request, carrying the
previous response's `next_marker` when that marker was truthy (the first
request carries no marker), extends the accumulator with the response's
`items` (defaulting to `[]`), and stops as soon as the response's
`next_marker` is falsy (absent, `None`, or the empty string).

The server is an oracle: the list of page responses it would give to the
successive requests.  Items are kept polymorphic — `list_files` never
inspects an item, it only accumulates them.
-/

/-- One response of the `list_by_share` endpoint: its `items` and its
`next_marker` (`Option.none` models an absent or `None` marker). -/
structure Page (α : Type) where
  items : List α
  next_marker : Option String

/-- Truthiness of a marker value: `None` and `""` are falsy. -/
def markerTruthy : Option String → Bool
  | Option.none => false
  | some s => s != ""

/-- The `while True` loop of `list_files`.  `m` is the marker the current
request carries (`Option.none` = no `marker` field in the request body).
Returns the accumulated items and the list of markers passed to the
successive requests.  An empty oracle means the server gave no further
response; the theorems only use oracles that end with a falsy marker, so that
case is never reached there. -/
def list_files_go (m : Option String) : List (Page α) → List α × List (Option String)
  | [] => ([], [])
  | p :: ps =>
      if markerTruthy p.next_marker then
        let r := list_files_go p.next_marker ps
        (p.items ++ r.1, m :: r.2)
      else (p.items, [m])

/-- `AliPCS.list_files`: the loop starting with no marker. -/
def list_files (pages : List (Page α)) : List α × List (Option String) :=
  list_files_go Option.none pages

/-!
## `AliPCS.create_folder` (lines 82–93)

The request body is built verbatim from the session's `drive_id`, the target
parent, and the folder name, with `check_name_mode` set to `"refuse"` and
`type` set to `"folder"`.
-/

/-- The JSON body `create_folder` POSTs to `/adrive/v2/file/createWithFolders`. -/
def create_folder_request (drive_id parent_file_id folder_name : String) : PyVal :=
  .dict [("drive_id", .str drive_id),
         ("parent_file_id", .str parent_file_id),
         ("name", .str folder_name),
         ("check_name_mode", .str "refuse"),
         ("type", .str "folder")]

/-- Modelled from the spec: the vendor server's folder-creation semantics
under the refuse-on-collision policy (`check_name_mode = "refuse"`), which
the source only invokes and does not implement — "the server is instructed to
fail rather than auto-rename if a folder with that name already exists under
the parent".  The server state is the list of `(parent_file_id, name)` pairs
of the folders that exist; a colliding create fails and leaves the state
unchanged, a non-colliding create adds the folder. -/
def serverCreateFolder (st : List (String × String)) (parent name : String) :
    List (String × String) × Bool :=
  if (parent, name) ∈ st then (st, false) else ((parent, name) :: st, true)

/-- `k` repeated (retried) `create_folder` calls for the same parent and
name against the refuse-on-collision server. -/
def retryCreate (parent name : String) : Nat → List (String × String) → List (String × String)
  | 0, st => st
  | k + 1, st => retryCreate parent name k (serverCreateFolder st parent name).1

/-!
## `save_shared_folder`, bulk phase (lines 195–232)

The `try` block calls `batch_copy_folder`, and when the first sub-response
has status 202 it extracts `async_task_id` and polls `check_async_task` in a
`while True` loop, sleeping `time.sleep(1)` after every non-terminal check.
`Succeed` returns `True`; `Failed`/`Cancelled` breaks out; any exception is
caught by the `except` and logged.  Every path other than the `Succeed`
return proceeds to the manual per-item replication that follows the `try`.

The bulk response and the successive poll responses are oracles.
-/

/-- How the `try` block around the bulk copy ends. -/
inductive BulkOutcome where
  /-- `return True` was executed: the subtree is done, manual replication is skipped -/
  | success
  /-- control reached the code after the `try`: manual replication runs -/
  | fallThrough
  /-- the poll oracle was exhausted while the `while True` loop was still
  waiting: within the modelled horizon the loop neither returned nor broke -/
  | stuck

/-- The overall routing of `save_shared_folder`. -/
inductive ReplicateOutcome where
  | bulkSuccess
  | manual
  | hung

/-- The condition of line 203,
`result.get('responses') and result['responses'][0]['status'] == 202`,
with Python's short-circuit evaluation: the subscript chain only runs when
`result.get('responses')` is truthy, and any exception it raises
propagates. -/
def bulkAccepted (r : PyVal) : Except PyErr Bool :=
  match PyVal.dictGet r "responses" with
  | .error e => .error e
  | .ok resps =>
      if resps.truthy then
        match PyVal.getItem r (.str "responses") with
        | .error e => .error e
        | .ok rs =>
            match PyVal.getItem rs (.int 0) with
            | .error e => .error e
            | .ok r0 =>
                match PyVal.getItem r0 (.str "status") with
                | .error e => .error e
                | .ok status => .ok (status.isInt 202)
      else .ok false

/-- The `while True` polling loop (lines 208–220) over the oracle list of
`check_async_task` responses.  Each iteration reads
`task_result['responses'][0]['body']` when `task_result.get('responses')` is
truthy; state `Succeed` logs `task_status['total_process']` and returns,
`Failed`/`Cancelled` breaks, and anything else — including a falsy
`responses` — sleeps 1 second and polls again.  Returns the loop outcome (or
the exception it raised) together with the list of slept durations. -/
def pollLoop : List PyVal → Except PyErr BulkOutcome × List ℚ
  | [] => (.ok .stuck, [])
  | tr :: rest =>
      match PyVal.dictGet tr "responses" with
      | .error e => (.error e, [])
      | .ok resps =>
          if resps.truthy then
            match PyVal.getItem tr (.str "responses") with
            | .error e => (.error e, [])
            | .ok rs =>
                match PyVal.getItem rs (.int 0) with
                | .error e => (.error e, [])
                | .ok r0 =>
                    match PyVal.getItem r0 (.str "body") with
                    | .error e => (.error e, [])
                    | .ok st =>
                        match PyVal.getItem st (.str "state") with
                        | .error e => (.error e, [])
                        | .ok state =>
                            if state.isStr "Succeed" then
                              match PyVal.getItem st (.str "total_process") with
                              | .error e => (.error e, [])
                              | .ok _ => (.ok .success, [])
                            else if state.isStr "Failed" || state.isStr "Cancelled" then
                              (.ok .fallThrough, [])
                            else
                              let r := pollLoop rest
                              (r.1, 1 :: r.2)
          else
            let r := pollLoop rest
            (r.1, 1 :: r.2)

/-- The body of the `try` block (lines 200–226) given the value `r` that
`batch_copy_folder` returned.  When the 202 condition holds, the task id
`result['responses'][0]['body']['async_task_id']` is read and the poll loop
runs; otherwise the `elif result.get('code')` branch is evaluated (it only
logs) and control falls through to manual replication. -/
def bulkTryBody (r : PyVal) (polls : List PyVal) : Except PyErr BulkOutcome × List ℚ :=
  match bulkAccepted r with
  | .error e => (.error e, [])
  | .ok true =>
      match PyVal.getItem r (.str "responses") with
      | .error e => (.error e, [])
      | .ok rs =>
          match PyVal.getItem rs (.int 0) with
          | .error e => (.error e, [])
          | .ok r0 =>
              match PyVal.getItem r0 (.str "body") with
              | .error e => (.error e, [])
              | .ok body =>
                  match PyVal.getItem body (.str "async_task_id") with
                  | .error e => (.error e, [])
                  | .ok _taskId => pollLoop polls
  | .ok false =>
      match PyVal.dictGet r "code" with
      | .error e => (.error e, [])
      | .ok _ => (.ok .fallThrough, [])

/-- The bulk phase of `save_shared_folder`: `bulk` is what the
`batch_copy_folder` call did (its returned value, or the exception it
raised).  Any exception inside the `try` is caught by the `except` of line
228 and control falls through to manual replication. -/
def bulkPhase (bulk : Except PyErr PyVal) (polls : List PyVal) : BulkOutcome × List ℚ :=
  match bulk with
  | .error _ => (.fallThrough, [])
  | .ok r =>
      match bulkTryBody r polls with
      | (.error _, ss) => (.fallThrough, ss)
      | (.ok o, ss) => (o, ss)

/-- Whether `save_shared_folder` returns from the bulk path, proceeds to the
manual per-item replication, or is still inside the poll loop at the end of
the modelled horizon. -/
def replicateDispatch (bulk : Except PyErr PyVal) (polls : List PyVal) :
    ReplicateOutcome × List ℚ :=
  match bulkPhase bulk polls with
  | (.success, ss) => (.bulkSuccess, ss)
  | (.fallThrough, ss) => (.manual, ss)
  | (.stuck, ss) => (.hung, ss)

/-- A well-formed accepted bulk response: first sub-response status 202 with
an `async_task_id`. -/
def mkBulkAccepted (taskId : String) : PyVal :=
  .dict [("responses",
          .list [.dict [("status", .int 202),
                        ("body", .dict [("async_task_id", .str taskId)])]])]

/-- A bulk response whose (single) sub-response has status `s` (e.g. an
immediate success 201) and body `b`. -/
def mkBulkImmediate (s : Int) (b : PyVal) : PyVal :=
  .dict [("responses", .list [.dict [("status", .int s), ("body", b)]])]

/-- A well-formed `check_async_task` response whose task state is `state`
and whose `total_process` is `tp`. -/
def mkTaskResp (state : String) (tp : Int) : PyVal :=
  .dict [("responses",
          .list [.dict [("status", .int 200),
                        ("body", .dict [("state", .str state),
                                        ("total_process", .int tp)])]])]

/-- The terminal states of an async copy task. -/
def isTerminalState (s : String) : Bool :=
  s == "Succeed" || s == "Failed" || s == "Cancelled"

/-!
## `save_shared_folder`, manual file phase (lines 249–263) and
`AliPCS.batch_copy_files` (lines 117–145)

The chunk loop `for i in range(0, len(file_list), batch_size)` with
`batch_size = 500` slices `file_list` into consecutive pieces of at most 500
and calls `batch_copy_files` on each.  `batch_copy_files` builds ONE batch
request holding a sub-request per item (ids `str(index)`) and returns the
whole JSON response of `make_request` — the dict `{"responses": [...]}` —
unchanged.  The caller then runs `for result in results:` over that dict,
checking `result['status'] == 201`.  The whole chunk loop sits inside one
`try`, whose `except` catches any exception and ends the file phase.
-/

/-- Slices of at most `n` consecutive elements, as produced by
`l[i:i+n]` for `i in range(0, len(l), n)` (`n ≥ 1`; the source uses 500). -/
def chunksOf (n : Nat) : List α → List (List α)
  | [] => []
  | x :: xs => (x :: xs.take (n - 1)) :: chunksOf n (xs.drop (n - 1))
termination_by l => l.length
decreasing_by
  simp only [List.length_drop, List.length_cons]
  omega

/-- `file["file_id"] if isinstance(file, dict) else file` (line 125). -/
def fileIdOf : PyVal → Except PyErr PyVal
  | .dict kvs => PyVal.getItem (.dict kvs) (.str "file_id")
  | v => .ok v

/-- One element of `requests_data` (lines 126–138). -/
def copySubRequest (share_id drive_id to_parent : String) (idx : Nat) (fid : PyVal) : PyVal :=
  .dict [("body", .dict [("file_id", fid),
                         ("share_id", .str share_id),
                         ("auto_rename", .bool true),
                         ("to_parent_file_id", .str to_parent),
                         ("to_drive_id", .str drive_id)]),
         ("headers", .dict [("Content-Type", .str "application/json")]),
         ("id", .str (toString idx)),
         ("method", .str "POST"),
         ("url", .str "/file/copy")]

/-- The `requests_data` list built by the `for index, file in
enumerate(file_list)` loop; `file["file_id"]` may raise `KeyError`. -/
def buildSubRequests (share_id drive_id to_parent : String) :
    List (Nat × PyVal) → Except PyErr (List PyVal)
  | [] => .ok []
  | (idx, f) :: rest =>
      match fileIdOf f with
      | .error e => .error e
      | .ok fid =>
          match buildSubRequests share_id drive_id to_parent rest with
          | .error e => .error e
          | .ok more => .ok (copySubRequest share_id drive_id to_parent idx fid :: more)

/-- The full JSON body `batch_copy_files` POSTs to `/adrive/v4/batch`. -/
def batch_copy_files_request (share_id drive_id to_parent : String)
    (file_list : List PyVal) : Except PyErr PyVal :=
  match buildSubRequests share_id drive_id to_parent file_list.enum with
  | .error e => .error e
  | .ok reqs => .ok (.dict [("requests", .list reqs), ("resource", .str "file")])

/-- What the per-item loop logs for one processed result. -/
inductive ItemLog where
  /-- `result['status'] == 201`: logs `result['body']['file_id']` -/
  | success (fid : PyVal)
  /-- any other status: logs `result['body']` -/
  | failure (body : PyVal)

/-- The inner `for result in results:` body (lines 256–260) applied to the
values the iteration yields, accumulating the per-item logs until the first
exception (if any). -/
def processResults : List PyVal → List ItemLog × Option PyErr
  | [] => ([], Option.none)
  | r :: rest =>
      match PyVal.getItem r (.str "status") with
      | .error e => ([], some e)
      | .ok status =>
          if status.isInt 201 then
            match PyVal.getItem r (.str "body") with
            | .error e => ([], some e)
            | .ok body =>
                match PyVal.getItem body (.str "file_id") with
                | .error e => ([], some e)
                | .ok fid =>
                    let p := processResults rest
                    (.success fid :: p.1, p.2)
          else
            match PyVal.getItem r (.str "body") with
            | .error e => ([], some e)
            | .ok body =>
                let p := processResults rest
                (.failure body :: p.1, p.2)

/-- The chunk loop (lines 253–261) over the pre-sliced chunks.  `server`
maps the batch request body built by `batch_copy_files` to the JSON value
`make_request` returns for it.  Result: the number of underlying batch calls
issued, the per-item logs produced, and the exception (if one occurred) that
the surrounding `except` caught, which ends the loop. -/
def filePhaseChunks (server : PyVal → PyVal) (share_id drive_id to_parent : String) :
    List (List PyVal) → Nat × List ItemLog × Option PyErr
  | [] => (0, [], Option.none)
  | c :: cs =>
      match batch_copy_files_request share_id drive_id to_parent c with
      | .error e => (0, [], some e)
      | .ok req =>
          let results := server req
          match results.iterate with
          | .error e => (1, [], some e)
          | .ok rs =>
              let p := processResults rs
              match p.2 with
              | some e => (1, p.1, some e)
              | Option.none =>
                  let r := filePhaseChunks server share_id drive_id to_parent cs
                  (r.1 + 1, p.1 ++ r.2.1, r.2.2)

/-- The file phase of `save_shared_folder` (lines 249–263): nothing happens
when `file_list` is empty (falsy), otherwise the chunk loop runs over the
500-slices. -/
def filePhase (server : PyVal → PyVal) (share_id drive_id to_parent : String)
    (file_list : List PyVal) : Nat × List ItemLog × Option PyErr :=
  if file_list.isEmpty then (0, [], Option.none)
  else filePhaseChunks server share_id drive_id to_parent (chunksOf 500 file_list)

/-!
## `save_shared_folder`, folder phase (lines 266–273)

Per folder, inside a `try`: `create_folder(target, folder["name"])`, an info
log reading `folder['name']` and `new_folder['file_id']`, then the recursive
`save_shared_folder(api, share_id, folder["file_id"], new_folder["file_id"])`.
The `except` logs an error whose f-string itself subscripts
`folder['name']`; then `time.sleep(api.request_interval)` and the loop
continues with the next sibling.  `create_folder` and the recursive call are
oracles.
-/

/-- Events of the folder loop, in program order. -/
inductive FolderEvent where
  /-- `create_folder` returned `nf` for folder `f` and the info line logged -/
  | created (f nf : PyVal)
  /-- the recursive `save_shared_folder` call for folder `f` returned -/
  | recursed (f : PyVal)
  /-- the `except` caught exception `e` at folder `f` and logged it -/
  | caught (f : PyVal) (e : PyErr)
  /-- `time.sleep(api.request_interval)` -/
  | slept

/-- The `try` body for one folder: the events it produced and the exception
it raised (if any). -/
def folderBody (createF : PyVal → Except PyErr PyVal)
    (recurse : PyVal → PyVal → Except PyErr Unit) (f : PyVal) :
    List FolderEvent × Option PyErr :=
  match PyVal.getItem f (.str "name") with
  | .error e => ([], some e)
  | .ok name =>
      match createF name with
      | .error e => ([], some e)
      | .ok nf =>
          match PyVal.getItem nf (.str "file_id") with
          | .error e => ([], some e)
          | .ok nfid =>
              match PyVal.getItem f (.str "file_id") with
              | .error e => ([.created f nf], some e)
              | .ok sfid =>
                  match recurse sfid nfid with
                  | .error e => ([.created f nf], some e)
                  | .ok _ => ([.created f nf, .recursed f], Option.none)

/-- The `for folder in folder_list:` loop.  When the `try` body raises, the
handler's log line subscripts `folder['name']` again: if THAT raises, the new
exception propagates out of the whole loop (aborting the remaining
siblings); otherwise the caught event is recorded and the loop continues. -/
def folderLoop (createF : PyVal → Except PyErr PyVal)
    (recurse : PyVal → PyVal → Except PyErr Unit) :
    List PyVal → Except PyErr (List FolderEvent)
  | [] => .ok []
  | f :: fs =>
      let b := folderBody createF recurse f
      match b.2 with
      | Option.none =>
          match folderLoop createF recurse fs with
          | .error e => .error e
          | .ok rest => .ok (b.1 ++ .slept :: rest)
      | some e =>
          match PyVal.getItem f (.str "name") with
          | .error e2 => .error e2
          | .ok _ =>
              match folderLoop createF recurse fs with
              | .error e3 => .error e3
              | .ok rest => .ok (b.1 ++ .caught f e :: .slept :: rest)

/-!
# Theorems

One theorem per claim of the specification, with helper lemmas before them.
-/

/-!
## Helper lemmas about `make_request`
-/

/-- Unfolding `make_request` at a 429 attempt. -/
theorem make_request_cons_rl (l : List Attempt) (y : ℚ) :
    make_request (.httpErr 429 :: l) y
      = ((make_request l (rateLimitStep y)).1,
         (make_request l (rateLimitStep y)).2.1,
         rateLimitStep y :: (make_request l (rateLimitStep y)).2.2) := rfl

/-- Unfolding `make_request` at a non-429 failure that is not the last
attempt: the loop continues with the interval unchanged. -/
theorem make_request_cons_other (s : Nat) (hs : s ≠ 429) (l : List Attempt)
    (hl : l ≠ []) (y : ℚ) :
    make_request (.httpErr s :: l) y = make_request l y := by
  simp only [make_request, if_neg hs]
  rw [if_neg]
  simp [hl]

/-- Unfolding `make_request` at a non-429 failure on the last attempt: the
exception is re-raised. -/
theorem make_request_last_other (s : Nat) (hs : s ≠ 429) (y : ℚ) :
    make_request [.httpErr s] y = (.raised, y, []) := by
  simp [make_request, hs]

/-- A run of `k` rate-limit responses followed by a success: the body is
returned, the interval ends at `succStep` of the `k`-times-doubled value,
and the slept durations are the successively doubled intervals. -/
theorem make_request_rl_run (b : PyVal) :
    ∀ (k : Nat) (x : ℚ),
      make_request (List.replicate k (.httpErr 429) ++ [.ok b]) x
        = (.ok b, succStep (2 ^ k * x), (List.range k).map (fun i => 2 ^ (i + 1) * x)) := by
  intro k
  induction k with
  | zero =>
      intro x
      simp [make_request]
  | succ m ih =>
      intro x
      rw [List.replicate_succ, List.cons_append, make_request_cons_rl, ih (rateLimitStep x)]
      simp only [rateLimitStep]
      refine Prod.ext rfl (Prod.ext ?_ ?_)
      · show succStep (2 ^ m * (x * 2)) = succStep (2 ^ (m + 1) * x)
        ring_nf
      · show x * 2 :: (List.range m).map (fun i => 2 ^ (i + 1) * (x * 2))
            = (List.range (m + 1)).map (fun i => 2 ^ (i + 1) * x)
        rw [List.range_succ_eq_map, List.map_cons, List.map_map]
        refine congrArg₂ _ (by ring) (List.map_congr_left ?_)
        intro i _
        show 2 ^ (i + 1) * (x * 2) = 2 ^ (Nat.succ i + 1) * x
        simp only [Nat.succ_eq_add_one, pow_succ]
        ring

/-- With `k ≥ 1` rate-limit hits and `x ≥ 1`, the doubled interval stays
at least 2, so the success step afterwards subtracts the full 1/10. -/
theorem two_le_pow_mul (k : Nat) (x : ℚ) (hx : 1 ≤ x) (hk : 1 ≤ k) :
    2 ≤ 2 ^ k * x := by
  have h1 : (2 : ℚ) ^ 1 ≤ 2 ^ k := pow_le_pow_right₀ one_le_two hk
  have h2 : (2 : ℚ) ^ k ≤ 2 ^ k * x := by
    nlinarith [pow_pos (show (0:ℚ) < 2 by norm_num) k]
  calc (2 : ℚ) = 2 ^ 1 := by norm_num
    _ ≤ 2 ^ k := h1
    _ ≤ 2 ^ k * x := h2

/-- Claim C2: a sequence of `k ≥ 1` rate-limit (429) responses followed by a
success, starting from any interval `x ≥ 1`: each 429 doubles
`request_interval` before sleeping it (the slept durations are
`2x, 4x, …, 2^k·x`), so the interval strictly increases across consecutive
rate-limit hits; the subsequent success decreases the interval by the fixed
step 1/10 (the floor `max 1 …` being inactive there), and the result never
drops below 1. -/
theorem request_interval_adaptive (b : PyVal) (k : Nat) (x : ℚ)
    (hx : 1 ≤ x) (hk : 1 ≤ k) :
    make_request (List.replicate k (.httpErr 429) ++ [.ok b]) x
      = (.ok b, 2 ^ k * x - 1 / 10, (List.range k).map (fun i => 2 ^ (i + 1) * x))
    ∧ List.Chain' (· < ·) ((List.range k).map (fun i => 2 ^ (i + 1) * x))
    ∧ 2 ^ k * x - 1 / 10 < 2 ^ k * x
    ∧ 1 ≤ 2 ^ k * x - 1 / 10 := by
  have h2 : (2 : ℚ) ≤ 2 ^ k * x := two_le_pow_mul k x hx hk
  have hfloor : (1 : ℚ) ≤ 2 ^ k * x - 1 / 10 := by linarith
  refine ⟨?_, ?_, by linarith, hfloor⟩
  · rw [make_request_rl_run]
    have : succStep (2 ^ k * x) = 2 ^ k * x - 1 / 10 := by
      unfold succStep
      exact max_eq_right (by linarith)
    rw [this]
  · refine List.Pairwise.chain' ?_
    rw [List.pairwise_map]
    refine (List.pairwise_lt_range k).imp ?_
    intro i j hij
    have hxpos : (0 : ℚ) < x := lt_of_lt_of_le one_pos hx
    exact mul_lt_mul_of_pos_right (pow_lt_pow_right₀ one_lt_two (by omega)) hxpos

/-- Witness for `request_interval_adaptive` at `k = 1`, `x = 1`. -/
theorem request_interval_adaptive_witness :
    1 ≤ (1 : ℚ) ∧ 1 ≤ 1 ∧
    (make_request (List.replicate 1 (.httpErr 429) ++ [.ok .none]) 1
      = (.ok .none, 2 ^ 1 * 1 - 1 / 10, (List.range 1).map (fun i => 2 ^ (i + 1) * 1))
    ∧ List.Chain' (· < ·) ((List.range 1).map (fun i => (2 : ℚ) ^ (i + 1) * 1))
    ∧ 2 ^ 1 * 1 - 1 / 10 < (2 : ℚ) ^ 1 * 1
    ∧ 1 ≤ (2 : ℚ) ^ 1 * 1 - 1 / 10) :=
  ⟨le_refl 1, le_refl 1, request_interval_adaptive .none 1 1 (le_refl 1) (le_refl 1)⟩

/-- Exhausting the budget on non-429 failures re-raises at the last attempt. -/
theorem make_request_other_exhaust :
    ∀ (attempts : List Attempt) (x : ℚ), attempts ≠ [] →
      (∀ a ∈ attempts, ∃ s, a = .httpErr s ∧ s ≠ 429) →
      (make_request attempts x).1 = .raised := by
  intro attempts
  induction attempts with
  | nil => intro x h; exact absurd rfl h
  | cons a rest ih =>
      intro x _ hall
      obtain ⟨s, rfl, hs⟩ := hall a (List.mem_cons_self a rest)
      cases rest with
      | nil => rw [make_request_last_other s hs]
      | cons b bs =>
          rw [make_request_cons_other s hs _ (by simp) x]
          exact ih x (by simp) (fun a ha => hall a (List.mem_cons_of_mem _ ha))

/-- Exhausting the budget on 429s makes the `for` loop end: `None` returned. -/
theorem make_request_rl_exhaust :
    ∀ (attempts : List Attempt) (x : ℚ),
      (∀ a ∈ attempts, a = .httpErr 429) →
      (make_request attempts x).1 = .noneReturned := by
  intro attempts
  induction attempts with
  | nil => intro x _; rfl
  | cons a rest ih =>
      intro x hall
      have ha := hall a (List.mem_cons_self a rest)
      subst ha
      rw [make_request_cons_rl]
      exact ih _ (fun a ha => hall a (List.mem_cons_of_mem _ ha))

/-- Failures before a success within the budget are absorbed: the success
body is returned. -/
theorem make_request_absorbs :
    ∀ (pre : List Attempt) (x : ℚ) (b : PyVal) (rest : List Attempt),
      (∀ a ∈ pre, ∃ s, a = .httpErr s) →
      (make_request (pre ++ .ok b :: rest) x).1 = .ok b := by
  intro pre
  induction pre with
  | nil => intro x b rest _; rfl
  | cons a pre' ih =>
      intro x b rest hall
      obtain ⟨s, rfl⟩ := hall a (List.mem_cons_self a pre')
      have hrec := fun x => ih x b rest (fun a ha => hall a (List.mem_cons_of_mem _ ha))
      by_cases hs : s = 429
      · subst hs
        rw [List.cons_append, make_request_cons_rl]
        exact hrec _
      · rw [List.cons_append, make_request_cons_other s hs _ (by cases pre' <;> simp) x]
        exact hrec x

/-- Claim C4 (amended): transient failures are absorbed inside the client up
to the attempt limit; once the budget is exhausted, a non-429 failure is
re-raised to the caller, but a run of rate-limit (429) failures exhausting
the budget makes `make_request` return Python `None` — a non-error value —
instead of raising. -/
theorem make_request_failure_surfacing :
    (∀ (attempts : List Attempt) (x : ℚ), attempts ≠ [] →
        (∀ a ∈ attempts, ∃ s, a = .httpErr s ∧ s ≠ 429) →
        (make_request attempts x).1 = .raised)
    ∧ (∀ (attempts : List Attempt) (x : ℚ),
        (∀ a ∈ attempts, a = .httpErr 429) →
        (make_request attempts x).1 = .noneReturned)
    ∧ (∀ (pre : List Attempt) (x : ℚ) (b : PyVal) (rest : List Attempt),
        (∀ a ∈ pre, ∃ s, a = .httpErr s) →
        (make_request (pre ++ .ok b :: rest) x).1 = .ok b) :=
  ⟨make_request_other_exhaust, make_request_rl_exhaust, make_request_absorbs⟩

/-- Witness for `make_request_failure_surfacing`: one concrete run per
conjunct. -/
theorem make_request_failure_surfacing_witness :
    (make_request [.httpErr 500] 1).1 = .raised
    ∧ (make_request [.httpErr 429, .httpErr 429] 1).1 = .noneReturned
    ∧ (make_request ([.httpErr 500] ++ .ok .none :: []) 1).1 = .ok .none :=
  ⟨make_request_failure_surfacing.1 [.httpErr 500] 1 (by simp)
      (by intro a ha; simp at ha; exact ⟨500, ha, by norm_num⟩),
   make_request_failure_surfacing.2.1 [.httpErr 429, .httpErr 429] 1
      (by intro a ha; simp at ha; exact ha),
   make_request_failure_surfacing.2.2 [.httpErr 500] 1 .none []
      (by intro a ha; simp at ha; exact ⟨500, ha⟩)⟩

/-- Claim C4, counterexample to the claim as stated: with the default budget
(`max_retries = 2`) and two consecutive 429 responses, `make_request` falls
off its retry loop and returns Python `None` (modelled as `noneReturned`,
with the interval left at 4 and sleeps 2 and 4 performed) — no error is
raised, contradicting "an error is raised rather than a non-error value
being returned … for rate-limit (429) failures". -/
theorem make_request_rl_exhaustion_counterexample :
    make_request [.httpErr 429, .httpErr 429] 1 = (.noneReturned, 4, [2, 4])
    ∧ ReqOutcome.noneReturned ≠ ReqOutcome.raised := by
  constructor
  · simp [make_request, rateLimitStep]
    norm_num
  · intro h
    exact ReqOutcome.noConfusion h

/-- Claim C9: every client operation takes a configurable attempt limit; the
default is 2, which lies between 2 and 5; the metadata/listing operations
(`get_share_info`, `list_files`, `create_folder`, `copy_file`) use that
default while the bulk mutating batch operations (`batch_copy_files`,
`batch_copy_folder`) use the strictly lower limit 1. -/
theorem retry_limit_defaults :
    2 ≤ make_request_default_max_retries ∧ make_request_default_max_retries ≤ 5
    ∧ get_share_info_max_retries = make_request_default_max_retries
    ∧ list_files_max_retries = make_request_default_max_retries
    ∧ create_folder_max_retries = make_request_default_max_retries
    ∧ copy_file_max_retries = make_request_default_max_retries
    ∧ batch_copy_files_max_retries < list_files_max_retries
    ∧ batch_copy_files_max_retries < get_share_info_max_retries
    ∧ batch_copy_folder_max_retries < list_files_max_retries
    ∧ batch_copy_folder_max_retries < get_share_info_max_retries
    ∧ batch_copy_folder_max_retries < create_folder_max_retries := by
  refine ⟨le_refl 2, by norm_num [make_request_default_max_retries], rfl, rfl, rfl, rfl,
    ?_, ?_, ?_, ?_, ?_⟩ <;> norm_num [batch_copy_files_max_retries,
      batch_copy_folder_max_retries, list_files_max_retries, get_share_info_max_retries,
      create_folder_max_retries, make_request_default_max_retries]

/-- Once the folder exists, further refused creates leave the server
unchanged. -/
theorem retryCreate_mem_fixed (parent name : String) (k : Nat)
    (st : List (String × String)) (h : (parent, name) ∈ st) :
    retryCreate parent name k st = st := by
  induction k with
  | zero => rfl
  | succ m ih => simp [retryCreate, serverCreateFolder, h, ih]

/-- Claim C8: every `create_folder` request carries
`check_name_mode = "refuse"`, instructing the server to fail rather than
auto-rename on a name collision; consequently (against the spec-modelled
refuse-on-collision server) any number of repeated creates of the same
folder under the same parent leaves at most one such destination folder. -/
theorem create_folder_refuse_no_duplicates (d p n parent name : String) (k : Nat)
    (st : List (String × String)) (h : (parent, name) ∉ st) :
    PyVal.getItem (create_folder_request d p n) (.str "check_name_mode")
      = .ok (.str "refuse")
    ∧ List.count (parent, name) (retryCreate parent name k st) ≤ 1 := by
  constructor
  · rfl
  · cases k with
    | zero =>
        simp only [retryCreate]
        exact le_of_eq_of_le (List.count_eq_zero.mpr h) (by norm_num)
    | succ m =>
        simp only [retryCreate, serverCreateFolder, if_neg h]
        rw [retryCreate_mem_fixed _ _ _ _ (List.mem_cons_self _ _)]
        rw [List.count_cons_self, List.count_eq_zero.mpr h]

/-- Witness for `create_folder_refuse_no_duplicates` at a concrete session
and three retried creates from an empty server. -/
theorem create_folder_refuse_no_duplicates_witness :
    ("par", "nm") ∉ ([] : List (String × String))
    ∧ (PyVal.getItem (create_folder_request "drv" "root" "nm") (.str "check_name_mode")
        = .ok (.str "refuse")
      ∧ List.count ("par", "nm") (retryCreate "par" "nm" 3 []) ≤ 1) :=
  ⟨by simp, create_folder_refuse_no_duplicates "drv" "root" "nm" "par" "nm" 3 [] (by simp)⟩

/-!
## Claim C6: pagination
-/

/-- The pagination loop over a marker chain: when every page before the last
carries a truthy `next_marker` and the last does not, the loop consumes
exactly those pages, returns all their items concatenated in order, and the
request markers are the start marker followed by the chained page markers. -/
theorem list_files_go_spec {α : Type} (last : Page α) :
    ∀ (front : List (Page α)) (m : Option String),
      (∀ p ∈ front, markerTruthy p.next_marker = true) →
      markerTruthy last.next_marker = false →
      list_files_go m (front ++ [last])
        = (((front ++ [last]).map Page.items).flatten,
           m :: front.map Page.next_marker) := by
  intro front
  induction front with
  | nil =>
      intro m _ hlast
      simp [list_files_go, hlast]
  | cons p ps ih =>
      intro m hfront hlast
      have hp : markerTruthy p.next_marker = true := hfront p (List.mem_cons_self p ps)
      rw [List.cons_append]
      show (if markerTruthy p.next_marker then
              let r := list_files_go p.next_marker (ps ++ [last])
              (p.items ++ r.1, m :: r.2)
            else (p.items, [m])) = _
      rw [if_pos hp, ih p.next_marker (fun q hq => hfront q (List.mem_cons_of_mem _ hq)) hlast]
      simp

/-- Counting across a flattened list of lists. -/
theorem count_flatten_sum {α : Type} [DecidableEq α] (v : α) :
    ∀ ls : List (List α), (ls.flatten).count v = (ls.map (fun l => l.count v)).sum := by
  intro ls
  induction ls with
  | nil => rfl
  | cons l ls ih => simp [List.count_append, ih]

/-- Claim C6: `list_files` repeats the paged list call, passing along the
server-returned continuation marker (the first request carries none, each
later request carries the previous page's marker), until the server returns
no (truthy) marker; it returns the concatenation of all pages' items in
server order, and for every value the number of its occurrences in the
result equals the sum of its occurrences across the pages — no duplicates,
no omissions, regardless of page sizes. -/
theorem list_files_pagination {α : Type} [DecidableEq α]
    (front : List (Page α)) (last : Page α)
    (hfront : ∀ p ∈ front, markerTruthy p.next_marker = true)
    (hlast : markerTruthy last.next_marker = false) :
    list_files (front ++ [last])
      = (((front ++ [last]).map Page.items).flatten,
         Option.none :: front.map Page.next_marker)
    ∧ ∀ v : α, ((list_files (front ++ [last])).1).count v
        = ((front ++ [last]).map (fun p => p.items.count v)).sum := by
  have h := list_files_go_spec last front Option.none hfront hlast
  refine ⟨h, ?_⟩
  intro v
  show ((list_files (front ++ [last])).1).count v = _
  rw [show (list_files (front ++ [last])).1
        = (((front ++ [last]).map Page.items).flatten) from congrArg Prod.fst h]
  rw [count_flatten_sum v]
  rw [List.map_map]
  rfl

/-- A first page chaining to a second via marker `m1`. -/
def c6_page1 : Page String := ⟨["a", "b"], some "m1"⟩

/-- A final page with no continuation marker. -/
def c6_page2 : Page String := ⟨["c"], Option.none⟩

/-- Witness for `list_files_pagination`: two pages chained by marker `m1`. -/
theorem list_files_pagination_witness :
    (∀ p ∈ [c6_page1], markerTruthy p.next_marker = true)
    ∧ markerTruthy c6_page2.next_marker = false
    ∧ (list_files ([c6_page1] ++ [c6_page2])
        = ((([c6_page1] ++ [c6_page2]).map Page.items).flatten,
           Option.none :: [c6_page1].map Page.next_marker)
      ∧ ∀ v : String,
          ((list_files ([c6_page1] ++ [c6_page2])).1).count v
            = (([c6_page1] ++ [c6_page2]).map (fun p => p.items.count v)).sum) := by
  have h1 : ∀ p ∈ [c6_page1], markerTruthy p.next_marker = true := by
    intro p hp
    rcases List.mem_cons.mp hp with rfl | hp'
    · rfl
    · exact absurd hp' (List.not_mem_nil p)
  exact ⟨h1, rfl, list_files_pagination _ _ h1 rfl⟩

/-!
## Claims C1 and C10: the bulk path and its fallback gating
-/

/-- A well-formed poll response in state `Succeed` ends the loop with the
bulk-path success (after logging `total_process`), with no further sleep. -/
theorem pollLoop_succeed (tp : Int) (rest : List PyVal) :
    pollLoop (mkTaskResp "Succeed" tp :: rest) = (.ok .success, []) := rfl

/-- A well-formed poll response in state `Failed` breaks out of the loop. -/
theorem pollLoop_failed (tp : Int) (rest : List PyVal) :
    pollLoop (mkTaskResp "Failed" tp :: rest) = (.ok .fallThrough, []) := rfl

/-- A well-formed poll response in state `Cancelled` breaks out of the loop. -/
theorem pollLoop_cancelled (tp : Int) (rest : List PyVal) :
    pollLoop (mkTaskResp "Cancelled" tp :: rest) = (.ok .fallThrough, []) := rfl

/-- A well-formed poll response in a non-terminal state sleeps exactly 1
second and polls again. -/
theorem pollLoop_nonterminal (s : String) (tp : Int) (rest : List PyVal)
    (hs : isTerminalState s = false) :
    pollLoop (mkTaskResp s tp :: rest) = ((pollLoop rest).1, 1 :: (pollLoop rest).2) := by
  simp only [isTerminalState, Bool.or_eq_false_iff] at hs
  show (if s == "Succeed" then (Except.ok BulkOutcome.success, ([] : List ℚ))
        else if s == "Failed" || s == "Cancelled" then (.ok .fallThrough, [])
        else ((pollLoop rest).1, 1 :: (pollLoop rest).2))
      = ((pollLoop rest).1, 1 :: (pollLoop rest).2)
  rw [hs.1.1, hs.1.2, hs.2]
  rfl

/-- The poll loop over a sequence of well-formed task responses whose states
are `pre` (all non-terminal) followed by a terminal `t`: it sleeps 1 second
per non-terminal poll, then succeeds exactly when `t` is `Succeed` and falls
through to manual replication when `t` is `Failed` or `Cancelled`. -/
theorem pollLoop_states (tp : Int) :
    ∀ (pre : List String) (t : String) (rest : List String),
      (∀ s ∈ pre, isTerminalState s = false) → isTerminalState t = true →
      pollLoop ((pre ++ t :: rest).map (fun s => mkTaskResp s tp))
        = (.ok (if t = "Succeed" then .success else .fallThrough),
           List.replicate pre.length 1) := by
  intro pre
  induction pre with
  | nil =>
      intro t rest _ ht
      by_cases hts : t = "Succeed"
      · subst hts
        simp [pollLoop_succeed]
      · have : t = "Failed" ∨ t = "Cancelled" := by
          simp only [isTerminalState, Bool.or_eq_true, beq_iff_eq] at ht
          rcases ht with (h | h) | h
          · exact absurd h hts
          · exact Or.inl h
          · exact Or.inr h
        rcases this with rfl | rfl
        · simp [pollLoop_failed]
        · simp [pollLoop_cancelled]
  | cons s pre' ih =>
      intro t rest hpre ht
      have hs := hpre s (List.mem_cons_self s pre')
      rw [List.cons_append, List.map_cons, pollLoop_nonterminal s tp _ hs,
          ih t rest (fun q hq => hpre q (List.mem_cons_of_mem _ hq)) ht]
      simp [List.replicate_succ]

/-- On an accepted (202) bulk response the `try` body is exactly the poll
loop. -/
theorem bulkTryBody_accepted (taskId : String) (polls : List PyVal) :
    bulkTryBody (mkBulkAccepted taskId) polls = pollLoop polls := rfl

/-- Claim C1: when the bulk-subtree-copy response carries an async task
(first sub-response status 202) and the successive well-formed poll
responses show non-terminal states `pre` and then a terminal state `t`, the
replicator sleeps exactly 1 second after each non-terminal poll
(`pre.length` sleeps of duration 1); if `t` is `Succeed` the subtree returns
success from the bulk path (manual replication skipped), and if `t` is
`Failed` or `Cancelled` the bulk path is abandoned and manual replication of
the same subtree runs. -/
theorem save_shared_folder_async_poll (taskId : String) (tp : Int)
    (pre : List String) (t : String) (rest : List String)
    (hpre : ∀ s ∈ pre, isTerminalState s = false)
    (ht : isTerminalState t = true) :
    replicateDispatch (.ok (mkBulkAccepted taskId))
        ((pre ++ t :: rest).map (fun s => mkTaskResp s tp))
      = ((if t = "Succeed" then .bulkSuccess else .manual),
         List.replicate pre.length 1) := by
  have hb : bulkPhase (.ok (mkBulkAccepted taskId))
        ((pre ++ t :: rest).map (fun s => mkTaskResp s tp))
      = ((if t = "Succeed" then BulkOutcome.success else BulkOutcome.fallThrough),
         List.replicate pre.length 1) := by
    simp only [bulkPhase]
    rw [bulkTryBody_accepted, pollLoop_states tp pre t rest hpre ht]
  simp only [replicateDispatch]
  rw [hb]
  by_cases hts : t = "Succeed" <;> simp [hts]

/-- Witness for `save_shared_folder_async_poll`: one pending poll, then
`Succeed`. -/
theorem save_shared_folder_async_poll_witness :
    (∀ s ∈ ["Pending"], isTerminalState s = false)
    ∧ isTerminalState "Succeed" = true
    ∧ replicateDispatch (.ok (mkBulkAccepted "tid"))
        ((["Pending"] ++ "Succeed" :: []).map (fun s => mkTaskResp s 3))
      = ((if "Succeed" = "Succeed" then .bulkSuccess else .manual),
         List.replicate (List.length ["Pending"]) 1) := by
  have h1 : ∀ s ∈ ["Pending"], isTerminalState s = false := by
    intro s hf
    rcases List.mem_cons.mp hf with rfl | hf'
    · rfl
    · exact absurd hf' (List.not_mem_nil s)
  exact ⟨h1, rfl, save_shared_folder_async_poll "tid" 3 ["Pending"] "Succeed" [] h1 rfl⟩

/-- Inversion: the `try` body only ends in a bulk-path success when the 202
condition held and the poll loop itself succeeded. -/
theorem bulkTryBody_success_inv (r : PyVal) (polls : List PyVal) (ss : List ℚ)
    (h : bulkTryBody r polls = (.ok .success, ss)) :
    bulkAccepted r = .ok true ∧ pollLoop polls = (.ok .success, ss) := by
  unfold bulkTryBody at h
  cases hba : bulkAccepted r with
  | error e => simp only [hba] at h; simp at h
  | ok tf =>
      simp only [hba] at h
      cases tf with
      | false =>
          cases hdg : PyVal.dictGet r "code" with
          | error e => simp only [hdg] at h; simp at h
          | ok v => simp only [hdg] at h; simp at h
      | true =>
          cases h1 : PyVal.getItem r (.str "responses") with
          | error e => simp only [h1] at h; simp at h
          | ok rs =>
              simp only [h1] at h
              cases h2 : PyVal.getItem rs (.int 0) with
              | error e => simp only [h2] at h; simp at h
              | ok r0 =>
                  simp only [h2] at h
                  cases h3 : PyVal.getItem r0 (.str "body") with
                  | error e => simp only [h3] at h; simp at h
                  | ok body =>
                      simp only [h3] at h
                      cases h4 : PyVal.getItem body (.str "async_task_id") with
                      | error e => simp only [h4] at h; simp at h
                      | ok tid => simp only [h4] at h; exact ⟨rfl, h⟩

/-- Claim C10: manual replication is skipped exactly on the
202-accepted-and-poll-`Succeed` path — (i) reaching the bulk-success outcome
forces the first sub-response status to have been 202 (the `bulkAccepted`
condition) and the poll loop to have succeeded; (ii) a bulk response whose
first sub-response is an immediate result with any status other than 202
(e.g. 201) still routes to manual replication, whatever the poll oracle
says; (iii) an exception from the bulk call also routes to manual
replication. -/
theorem manual_fallback_gating :
    (∀ (bulk : Except PyErr PyVal) (polls : List PyVal),
        (replicateDispatch bulk polls).1 = .bulkSuccess →
        ∃ r, bulk = .ok r ∧ bulkAccepted r = .ok true
          ∧ (pollLoop polls).1 = .ok .success)
    ∧ (∀ (s : Int) (b : PyVal) (polls : List PyVal), s ≠ 202 →
        replicateDispatch (.ok (mkBulkImmediate s b)) polls = (.manual, []))
    ∧ (∀ (e : PyErr) (polls : List PyVal),
        replicateDispatch (.error e) polls = (.manual, [])) := by
  refine ⟨?_, ?_, ?_⟩
  · intro bulk polls h
    cases bulk with
    | error e => simp [replicateDispatch, bulkPhase] at h
    | ok r =>
        refine ⟨r, rfl, ?_⟩
        rcases hbt : bulkTryBody r polls with ⟨o, ss⟩
        simp only [replicateDispatch, bulkPhase, hbt] at h
        cases o with
        | error e => simp at h
        | ok bo =>
            cases bo with
            | success =>
                obtain ⟨hacc, hpoll⟩ := bulkTryBody_success_inv r polls ss hbt
                exact ⟨hacc, by rw [hpoll]⟩
            | fallThrough => simp at h
            | stuck => simp at h
  · intro s b polls hs
    have hbeq : (s == (202 : Int)) = false := beq_eq_false_iff_ne.mpr hs
    have hacc : bulkAccepted (mkBulkImmediate s b) = .ok false := by
      have h0 : bulkAccepted (mkBulkImmediate s b)
          = .ok ((PyVal.int s).isInt 202) := rfl
      rw [h0, show (PyVal.int s).isInt 202 = (s == (202 : Int)) from rfl, hbeq]
    have htb : bulkTryBody (mkBulkImmediate s b) polls = (.ok .fallThrough, []) := by
      simp only [bulkTryBody, hacc]
      rfl
    simp only [replicateDispatch, bulkPhase, htb]
  · intro e polls
    rfl

/-- Witness for `manual_fallback_gating`: concrete instantiations of the
three conjuncts with their hypotheses discharged. -/
theorem manual_fallback_gating_witness :
    (∃ r, (Except.ok (mkBulkAccepted "t") : Except PyErr PyVal) = .ok r
        ∧ bulkAccepted r = .ok true
        ∧ (pollLoop [mkTaskResp "Succeed" 1]).1 = .ok .success)
    ∧ replicateDispatch (.ok (mkBulkImmediate 201 .none)) [] = (.manual, [])
    ∧ replicateDispatch (.error .keyError) [] = (.manual, []) :=
  ⟨manual_fallback_gating.1 (.ok (mkBulkAccepted "t")) [mkTaskResp "Succeed" 1] rfl,
   manual_fallback_gating.2.1 201 .none [] (by decide),
   manual_fallback_gating.2.2 .keyError []⟩

/-!
## Claims C3 and C5: the per-item result loop iterates the response dict

`batch_copy_files` returns the whole JSON response `{"responses": [...]}`
(line 145), but `save_shared_folder` runs `for result in results:` directly
over that dict (line 256).  Python iteration over a dict yields its KEYS, so
the first iteration binds `result = "responses"` and `result['status']`
subscripts a string with a string: `TypeError`, caught by the `except` of
line 262, which ends the whole file phase.
-/

/-- A compliant batch server: answers `{"responses": [...]}` with one
status-201 sub-response per sub-request of the batch call. -/
def okCopyResp : PyVal :=
  .dict [("status", .int 201), ("body", .dict [("file_id", .str "new")])]

/-- See `okCopyResp`: the response lists one entry per requested item. -/
def echoServer (req : PyVal) : PyVal :=
  match PyVal.getItem req (.str "requests") with
  | .ok (.list rs) => .dict [("responses", .list (rs.map (fun _ => okCopyResp)))]
  | _ => .dict [("responses", .list [])]

/-- Building the sub-request list succeeds whenever every file entry yields
a file id. -/
theorem buildSubRequests_enumFrom_ok (s d t : String) :
    ∀ (l : List PyVal) (n : Nat), (∀ f ∈ l, ∃ fid, fileIdOf f = .ok fid) →
      ∃ reqs, buildSubRequests s d t (List.enumFrom n l) = .ok reqs := by
  intro l
  induction l with
  | nil => intro n _; exact ⟨[], rfl⟩
  | cons f fs ih =>
      intro n hall
      obtain ⟨fid, hfid⟩ := hall f (List.mem_cons_self f fs)
      obtain ⟨reqs, hreqs⟩ := ih (n + 1) (fun g hg => hall g (List.mem_cons_of_mem _ hg))
      refine ⟨copySubRequest s d t n fid :: reqs, ?_⟩
      simp [List.enumFrom, buildSubRequests, hfid, hreqs]

/-- Iterating the dict that `echoServer` returns yields its single key. -/
theorem echoServer_iterate (reqs : List PyVal) :
    PyVal.iterate (echoServer (.dict [("requests", .list reqs), ("resource", .str "file")]))
      = .ok [.str "responses"] := rfl

/-- Any chunk of well-formed file entries: one underlying batch call is
issued, then iterating the response dict yields the key string
`"responses"`, whose `['status']` subscript raises `TypeError`; the
exception ends the chunk loop with no per-item log and the remaining chunks
never issued. -/
theorem filePhaseChunks_dict_iteration_bug (s d t : String) (c : List PyVal)
    (cs : List (List PyVal)) (hall : ∀ f ∈ c, ∃ fid, fileIdOf f = .ok fid) :
    filePhaseChunks echoServer s d t (c :: cs) = (1, [], some .typeError) := by
  obtain ⟨reqs, hreqs⟩ := buildSubRequests_enumFrom_ok s d t c 0 hall
  have hb : batch_copy_files_request s d t c
      = .ok (.dict [("requests", .list reqs), ("resource", .str "file")]) := by
    simp [batch_copy_files_request, List.enum, hreqs]
  simp only [filePhaseChunks, hb, echoServer_iterate]
  rfl

/-- The 501 identical well-formed file entries used as the failing input. -/
def c3_file : PyVal := .dict [("file_id", .str "f"), ("type", .str "file")]

/-- `file_list` of length 501: one more than the 500-item chunk limit. -/
def c3_input : List PyVal := List.replicate 501 c3_file

/-- Claim C3 (code bug): copying K = 501 files does slice the input into
⌈501/500⌉ = 2 chunks, but the run issues only ONE underlying batch call and
produces ZERO per-item results: the per-item loop iterates the response
dict itself, `result['status']` raises `TypeError` on the key string
`"responses"`, and the `except` aborts the remaining chunk — instead of the
claimed 2 calls and 501 per-item results in input order. -/
theorem batch_copy_chunking_bug :
    (chunksOf 500 c3_input).length = 2
    ∧ filePhase echoServer "s" "d" "p" c3_input = (1, [], some PyErr.typeError) := by
  have hsplit : c3_input = c3_file :: List.replicate 500 c3_file := rfl
  have hchunks : chunksOf 500 c3_input
      = (c3_file :: List.replicate 499 c3_file) :: [[c3_file]] := by
    rw [hsplit, chunksOf, List.take_replicate, List.drop_replicate]
    norm_num
    rw [chunksOf]
    simp [chunksOf]
  constructor
  · rw [hchunks]; rfl
  · have hne : c3_input.isEmpty = false := by rw [hsplit]; rfl
    have hall : ∀ f ∈ c3_file :: List.replicate 499 c3_file,
        ∃ fid, fileIdOf f = .ok fid := by
      intro f hf
      rcases List.mem_cons.mp hf with rfl | hf'
      · exact ⟨.str "f", rfl⟩
      · rw [(List.mem_replicate.mp hf').2]
        exact ⟨.str "f", rfl⟩
    show filePhase echoServer "s" "d" "p" c3_input = (1, [], some PyErr.typeError)
    rw [filePhase, if_neg (by simp [hne]), hchunks]
    exact filePhaseChunks_dict_iteration_bug "s" "d" "p" _ _ hall

/-- A well-formed per-item success result (status 201). -/
def c5_resp201 : PyVal :=
  .dict [("status", .int 201), ("body", .dict [("file_id", .str "na")])]

/-- A well-formed per-item failure result (status 403). -/
def c5_resp403 : PyVal :=
  .dict [("status", .int 403), ("body", .dict [("code", .str "Forbidden")])]

/-- A server answering every batch call with one 201 and one 403 sub-result. -/
def c5_server (_req : PyVal) : PyVal :=
  .dict [("responses", .list [c5_resp201, c5_resp403])]

/-- First file of the two-file failing input. -/
def c5_fileA : PyVal := .dict [("file_id", .str "a"), ("type", .str "file")]

/-- Second file of the two-file failing input. -/
def c5_fileB : PyVal := .dict [("file_id", .str "b"), ("type", .str "file")]

/-- Claim C5 (code bug): had the loop been given the per-item result LIST,
it would log item 1 as a success (201) and item 2 as a reported failure
(403) without aborting — the first conjunct.  But the code iterates the
response DICT, so with two files and a server answering one 201 and one 403
the run processes ZERO per-item results: `result['status']` raises
`TypeError` on the key string `"responses"` and the `except` aborts the
whole file phase — the second conjunct. -/
theorem per_item_result_bug :
    processResults [c5_resp201, c5_resp403]
      = ([.success (.str "na"), .failure (.dict [("code", .str "Forbidden")])],
         Option.none)
    ∧ filePhase c5_server "s" "d" "p" [c5_fileA, c5_fileB]
      = (1, [], some PyErr.typeError) := by
  constructor
  · rfl
  · have h1 : List.take (500 - 1) [c5_fileB] = [c5_fileB] :=
      List.take_of_length_le (by norm_num)
    have h2 : List.drop (500 - 1) [c5_fileB] = ([] : List PyVal) :=
      List.drop_eq_nil_of_le (by norm_num)
    have hc : chunksOf 500 [c5_fileA, c5_fileB] = [[c5_fileA, c5_fileB]] := by
      rw [chunksOf, h1, h2, chunksOf]
    rw [filePhase, if_neg (by simp), hc]
    rfl

/-!
## Claim C7: per-folder failure isolation in the folder loop
-/

/-- When the `try` body of one folder iteration raised no exception, its
recursive replication ran (the `recursed` event is among its events). -/
theorem folderBody_ok_recursed (createF : PyVal → Except PyErr PyVal)
    (recurse : PyVal → PyVal → Except PyErr Unit) (f : PyVal)
    (h : (folderBody createF recurse f).2 = Option.none) :
    FolderEvent.recursed f ∈ (folderBody createF recurse f).1 := by
  unfold folderBody at h ⊢
  cases h1 : PyVal.getItem f (.str "name") with
  | error e => simp only [h1] at h; simp at h
  | ok name =>
      simp only [h1] at h ⊢
      cases h2 : createF name with
      | error e => simp only [h2] at h; simp at h
      | ok nf =>
          simp only [h2] at h ⊢
          cases h3 : PyVal.getItem nf (.str "file_id") with
          | error e => simp only [h3] at h; simp at h
          | ok nfid =>
              simp only [h3] at h ⊢
              cases h4 : PyVal.getItem f (.str "file_id") with
              | error e => simp only [h4] at h; simp at h
              | ok sfid =>
                  simp only [h4] at h ⊢
                  cases h5 : recurse sfid nfid with
                  | error e => simp only [h5] at h; simp at h
                  | ok u => simp [h5]

/-- Claim C7: when every listed folder entry carries a name (as the listing
produces), the folder loop never propagates an exception: an error raised
while processing one folder — a failing `create_folder`, a failing recursive
replication, or a malformed created-folder value — is caught and logged at
that folder's boundary, and EVERY folder of the list is still processed:
each one either completed its recursive replication or has a caught-error
event, independently of what happened to its siblings. -/
theorem folder_partial_failure_isolation (createF : PyVal → Except PyErr PyVal)
    (recurse : PyVal → PyVal → Except PyErr Unit) (fs : List PyVal)
    (hnames : ∀ f ∈ fs, ∃ s, PyVal.getItem f (.str "name") = .ok s) :
    ∃ evs, folderLoop createF recurse fs = .ok evs
      ∧ ∀ f ∈ fs, FolderEvent.recursed f ∈ evs ∨ ∃ e, FolderEvent.caught f e ∈ evs := by
  induction fs with
  | nil => exact ⟨[], rfl, by intro f hf; exact absurd hf (List.not_mem_nil f)⟩
  | cons f fs' ih =>
      obtain ⟨evs', hloop', hall'⟩ := ih (fun g hg => hnames g (List.mem_cons_of_mem _ hg))
      obtain ⟨nm, hnm⟩ := hnames f (List.mem_cons_self f fs')
      cases hb : (folderBody createF recurse f).2 with
      | none =>
          refine ⟨(folderBody createF recurse f).1 ++ .slept :: evs', ?_, ?_⟩
          · simp only [folderLoop, hb, hloop']
          · intro g hg
            rcases List.mem_cons.mp hg with rfl | hg'
            · exact Or.inl (List.mem_append_left _ (folderBody_ok_recursed createF recurse g hb))
            · rcases hall' g hg' with hrec | ⟨e, hc⟩
              · exact Or.inl (List.mem_append_right _ (List.mem_cons_of_mem _ hrec))
              · exact Or.inr ⟨e, List.mem_append_right _ (List.mem_cons_of_mem _ hc)⟩
      | some e =>
          refine ⟨(folderBody createF recurse f).1 ++ .caught f e :: .slept :: evs', ?_, ?_⟩
          · simp only [folderLoop, hb, hnm, hloop']
          · intro g hg
            rcases List.mem_cons.mp hg with rfl | hg'
            · exact Or.inr ⟨e, List.mem_append_right _ (List.mem_cons_self _ _)⟩
            · rcases hall' g hg' with hrec | ⟨e2, hc⟩
              · exact Or.inl (List.mem_append_right _
                  (List.mem_cons_of_mem _ (List.mem_cons_of_mem _ hrec)))
              · exact Or.inr ⟨e2, List.mem_append_right _
                  (List.mem_cons_of_mem _ (List.mem_cons_of_mem _ hc))⟩

/-- A sibling folder whose creation will fail terminally. -/
def c7_folderA : PyVal := .dict [("name", .str "a"), ("file_id", .str "fa")]

/-- A sibling folder whose processing succeeds. -/
def c7_folderB : PyVal := .dict [("name", .str "b"), ("file_id", .str "fb")]

/-- A `create_folder` oracle that fails (refuse-on-collision, say) for the
name `a` and succeeds for every other name. -/
def c7_create : PyVal → Except PyErr PyVal
  | .str "a" => .error .keyError
  | _ => .ok (.dict [("file_id", .str "nf")])

/-- A recursive-replication oracle that always succeeds. -/
def c7_recurse (_src _dst : PyVal) : Except PyErr Unit := .ok ()

/-- Witness for `folder_partial_failure_isolation`: creating folder `a`
fails but folder `b` is still replicated. -/
theorem folder_partial_failure_isolation_witness :
    (∀ f ∈ [c7_folderA, c7_folderB], ∃ s, PyVal.getItem f (.str "name") = .ok s)
    ∧ ∃ evs, folderLoop c7_create c7_recurse [c7_folderA, c7_folderB] = .ok evs
        ∧ ∀ f ∈ [c7_folderA, c7_folderB],
            FolderEvent.recursed f ∈ evs ∨ ∃ e, FolderEvent.caught f e ∈ evs := by
  have hyp : ∀ f ∈ [c7_folderA, c7_folderB], ∃ s, PyVal.getItem f (.str "name") = .ok s := by
    intro f hf
    rcases List.mem_cons.mp hf with rfl | hf'
    · exact ⟨.str "a", rfl⟩
    · rcases List.mem_cons.mp hf' with rfl | h0
      · exact ⟨.str "b", rfl⟩
      · exact absurd h0 (List.not_mem_nil f)
  exact ⟨hyp, folder_partial_failure_isolation c7_create c7_recurse _ hyp⟩
